import Mathlib

/-!
Verification of the gate descriptor layer of quri-parts
(packages/circuit/rust/gate.rs): construction/validation, structural
equality, bit-exact hashing, canonical string form, and the
reduce/reconstruct round trip for `QuantumGate` and
`ParametricQuantumGate`.

Machine numerics are embedded as follows: an `f64` is represented by its
64-bit IEEE-754 pattern as a natural number, so that exact-representation
comparison, numeric IEEE comparison, and the `to_le_bytes` byte extraction
used by the hash path are all expressible; `Complex64` is a pair of such
floats; `usize`/`u8` are naturals reduced modulo the word size where the
byte encodings demand it.
-/

/-- A 64-bit IEEE-754 floating point value, represented by its bit
pattern (embedding of Rust `f64` as it appears in this module: the code
only ever compares, hashes and serializes these values, never performs
arithmetic on them). -/
structure F64 where
  bits : Nat
deriving DecidableEq

/-- The bit pattern of `+0.0`. -/
def f64PosZero : F64 := ⟨0⟩

/-- The bit pattern of `-0.0` (sign bit set, all else clear). -/
def f64NegZero : F64 := ⟨2 ^ 63⟩

/-- Whether a bit pattern denotes an IEEE-754 NaN: exponent field all
ones and nonzero mantissa. -/
def F64.isNaN (x : F64) : Bool :=
  decide ((x.bits / 2 ^ 52) % 2 ^ 11 = 2 ^ 11 - 1) && !decide (x.bits % 2 ^ 52 = 0)

/-- Whether a bit pattern denotes an IEEE-754 zero (either sign). -/
def F64.isZero (x : F64) : Bool :=
  decide (x.bits = 0) || decide (x.bits = 2 ^ 63)

/-- Numeric IEEE-754 equality on binary64: NaN equals nothing, the two
zeros are equal, and otherwise finite/infinite values are equal exactly
when their (unique) representations coincide. -/
def f64IeeeEq (a b : F64) : Bool :=
  !a.isNaN && !b.isNaN && (decide (a.bits = b.bits) || (a.isZero && b.isZero))

/-- The eight little-endian bytes of a 64-bit value (Rust
`f64::to_le_bytes` applied to the bit pattern). -/
def leBytes8 (n : Nat) : List Nat :=
  [n % 256, n / 2 ^ 8 % 256, n / 2 ^ 16 % 256, n / 2 ^ 24 % 256,
   n / 2 ^ 32 % 256, n / 2 ^ 40 % 256, n / 2 ^ 48 % 256, n / 2 ^ 56 % 256]

/-- Rust `f64::to_le_bytes` on the embedded representation. -/
def F64.to_le_bytes (x : F64) : List Nat := leBytes8 x.bits

/-- Embedding of `num_complex::Complex64`: a pair of `f64` components. -/
structure Complex64 where
  re : F64
  im : F64
deriving DecidableEq

/-- Embedding of the `GenericGateProperty` record exactly as the binding
layer populates it in `QuantumGate::py_new` and
`ParametricQuantumGate::py_new` (gate.rs lines 39-47 and 190-198): name,
three index lists, float parameters, Pauli ids, and an optional complex
matrix. -/
structure GenericGateProperty where
  name : String
  target_indices : List Nat
  control_indices : List Nat
  classical_indices : List Nat
  params : List F64
  pauli_ids : List Nat
  unitary_matrix : Option (List (List Complex64))
deriving DecidableEq

/-- Modelled from the spec: the shape families of the Gate-Kind Table
(spec section 4.1). The table itself lives outside the given source
(inside `QuriPartsGate::from_property`); the spec names these families:
fixed non-parametric gates with fixed target and control counts,
parametric rotation gates with a fixed parameter count, generalized
Pauli and Pauli-rotation gates whose target count must equal the
`pauli_ids` length, the generic unitary-matrix gate, and measurement-like
gates carrying classical indices. -/
inductive GateKind where
  | fixedGate (nt nc : Nat)
  | rotationGate (nt np : Nat)
  | pauliGate
  | pauliRotationGate
  | unitaryMatrixGate
  | measurementGate
deriving DecidableEq

/-- A matrix is square of dimension `d`: it has `d` rows and every row
has `d` entries. -/
def isSquare (m : List (List Complex64)) (d : Nat) : Bool :=
  decide (m.length = d) && m.all (fun row => decide (row.length = d))

/-- Modelled from the spec: the per-family shape check of the
Normalizer/Validator (spec sections 4.1-4.2) — each field length must
match the table entry; the unitary-matrix family requires a square
matrix of dimension `2 ^ len(target_indices)` and forbids all other
optional fields; every other family forbids a matrix. -/
def shapeOk (k : GateKind) (p : GenericGateProperty) : Bool :=
  match k with
  | .fixedGate nt nc =>
      decide (p.target_indices.length = nt) && decide (p.control_indices.length = nc) &&
      p.classical_indices.isEmpty && p.params.isEmpty && p.pauli_ids.isEmpty &&
      p.unitary_matrix.isNone
  | .rotationGate nt np =>
      decide (p.target_indices.length = nt) && p.control_indices.isEmpty &&
      p.classical_indices.isEmpty && decide (p.params.length = np) &&
      p.pauli_ids.isEmpty && p.unitary_matrix.isNone
  | .pauliGate =>
      decide (p.target_indices.length = p.pauli_ids.length) &&
      p.control_indices.isEmpty && p.classical_indices.isEmpty && p.params.isEmpty &&
      p.unitary_matrix.isNone
  | .pauliRotationGate =>
      decide (p.target_indices.length = p.pauli_ids.length) &&
      p.control_indices.isEmpty && p.classical_indices.isEmpty &&
      decide (p.params.length = 1) && p.unitary_matrix.isNone
  | .unitaryMatrixGate =>
      p.control_indices.isEmpty && p.classical_indices.isEmpty && p.params.isEmpty &&
      p.pauli_ids.isEmpty &&
      (match p.unitary_matrix with
       | some m => isSquare m (2 ^ p.target_indices.length)
       | none => false)
  | .measurementGate =>
      decide (p.classical_indices.length = p.target_indices.length) &&
      p.control_indices.isEmpty && p.params.isEmpty && p.pauli_ids.isEmpty &&
      p.unitary_matrix.isNone

/-- Modelled from the spec: the static Gate-Kind Table (spec section
4.1), a read-only mapping from gate name to its shape family, populated
with the gate names the spec mentions (single-qubit fixed gates,
rotations, multi-controlled gates, Pauli gates, the unitary-matrix gate,
measurement). -/
def gateKindTable : List (String × GateKind) :=
  [("Identity", .fixedGate 1 0), ("X", .fixedGate 1 0), ("Y", .fixedGate 1 0),
   ("Z", .fixedGate 1 0), ("H", .fixedGate 1 0), ("S", .fixedGate 1 0),
   ("Sdag", .fixedGate 1 0), ("T", .fixedGate 1 0), ("Tdag", .fixedGate 1 0),
   ("SqrtX", .fixedGate 1 0), ("SqrtXdag", .fixedGate 1 0),
   ("SqrtY", .fixedGate 1 0), ("SqrtYdag", .fixedGate 1 0),
   ("RX", .rotationGate 1 1), ("RY", .rotationGate 1 1), ("RZ", .rotationGate 1 1),
   ("U1", .rotationGate 1 1), ("U2", .rotationGate 1 2), ("U3", .rotationGate 1 3),
   ("CNOT", .fixedGate 1 1), ("CZ", .fixedGate 1 1), ("SWAP", .fixedGate 2 0),
   ("TOFFOLI", .fixedGate 1 2),
   ("Pauli", .pauliGate), ("PauliRotation", .pauliRotationGate),
   ("UnitaryMatrix", .unitaryMatrixGate), ("Measurement", .measurementGate)]

/-- Case-sensitive exact lookup of a gate name in the Gate-Kind Table. -/
def lookupGateKind (name : String) : Option GateKind :=
  (gateKindTable.find? (fun e => e.fst == name)).map (fun e => e.snd)

/-- Modelled from the spec: `QuriPartsGate::<f64>::from_property`, whose
body lives outside the given source. Spec section 4.2: look up the name
in the Gate-Kind Table; fail when the name is unrecognized or any field
shape mismatches; on success return a value wrapping exactly the
validated fields, with no field dropped, reordered, or defaulted. -/
def from_property (p : GenericGateProperty) : Option GenericGateProperty :=
  match lookupGateKind p.name with
  | some k => if shapeOk k p then some p else none
  | none => none

/-- Embedding of the `QuantumGate` wrapper (gate.rs line 8). The inner
`QuriPartsGate<f64>` is represented through its `into_property` image,
which by the Normalizer contract holds exactly the validated fields. -/
structure QuantumGate where
  gate : GenericGateProperty
deriving DecidableEq

/-- Embedding of `QuriPartsGate::into_property` as used throughout
gate.rs: recover the validated field record. -/
def QuantumGate.into_property (g : QuantumGate) : GenericGateProperty := g.gate

/-- The empty-matrix normalization step of `QuantumGate::py_new`
(gate.rs lines 34-38): a supplied matrix with zero rows is replaced by
no matrix before validation. -/
def normalizeMatrix : Option (List (List Complex64)) → Option (List (List Complex64))
  | some matrix => if matrix.length = 0 then none else some matrix
  | none => none

/-- Embedding of `QuantumGate::py_new` (gate.rs lines 25-56): normalize
an empty matrix to absent, assemble the property record, validate it
through `from_property`, and on failure raise the single error carrying
the attempted gate name. -/
def QuantumGate.py_new (name : String) (target_indices : List Nat)
    (control_indices : List Nat) (classical_indices : List Nat)
    (params : List F64) (pauli_ids : List Nat)
    (unitary_matrix : Option (List (List Complex64))) : Except String QuantumGate :=
  match from_property ⟨name, target_indices, control_indices, classical_indices,
      params, pauli_ids, normalizeMatrix unitary_matrix⟩ with
  | some g => .ok ⟨g⟩
  | none => .error ("Cannot initialize QuantumGate with " ++ name)

/-- Embedding of the data tuple returned by `QuantumGate::py_reduce`
(gate.rs lines 63-95): the seven fields of the property record, in
declaration order (the accompanying class object is host-language
plumbing outside this core). -/
def QuantumGate.py_reduce (g : QuantumGate) :
    String × List Nat × List Nat × List Nat × List F64 × List Nat ×
      Option (List (List Complex64)) :=
  (g.into_property.name, g.into_property.target_indices,
   g.into_property.control_indices, g.into_property.classical_indices,
   g.into_property.params, g.into_property.pauli_ids,
   g.into_property.unitary_matrix)

/-- Embedding of `QuantumGate::get_unitary_matrix` (gate.rs lines
158-165): a present matrix is returned row by row; an absent matrix is
returned as the empty tuple. -/
def QuantumGate.get_unitary_matrix (g : QuantumGate) : List (List Complex64) :=
  match g.into_property.unitary_matrix with
  | some mat => mat
  | none => []

/-- The byte stream Rust `str::hash` feeds to the hasher: the UTF-8
bytes of the string followed by the separator byte 0xff. -/
def utf8BytesOfChar (c : Nat) : List Nat :=
  if c < 128 then [c]
  else if c < 2048 then [192 + c / 64, 128 + c % 64]
  else if c < 65536 then [224 + c / 4096, 128 + c / 64 % 64, 128 + c % 64]
  else [240 + c / 262144, 128 + c / 4096 % 64, 128 + c / 64 % 64, 128 + c % 64]

/-- Byte stream of hashing a `String`. -/
def strHashBytes (s : String) : List Nat :=
  (s.data.map (fun c => utf8BytesOfChar c.toNat)).flatten ++ [255]

/-- Byte stream of hashing one `usize`: its eight little-endian bytes. -/
def usizeHashBytes (n : Nat) : List Nat := leBytes8 (n % 2 ^ 64)

/-- Byte stream of hashing a `Vec<usize>`: the length prefix followed by
each element. -/
def natListHashBytes (l : List Nat) : List Nat :=
  usizeHashBytes l.length ++ (l.map usizeHashBytes).flatten

/-- Byte stream of hashing a `Vec<u8>`: the length prefix followed by
the raw bytes. -/
def byteListHashBytes (l : List Nat) : List Nat :=
  usizeHashBytes l.length ++ l.map (fun b => b % 256)

/-- Byte stream of hashing `x.to_le_bytes()` for one `f64` (an eight-byte
array: length prefix then the bytes of the exact bit pattern). -/
def f64HashBytes (x : F64) : List Nat := usizeHashBytes 8 ++ x.to_le_bytes

/-- Byte stream contributed by the parameter loop of
`QuantumGate::py_hash` (gate.rs lines 107-109). -/
def paramsHashBytes (ps : List F64) : List Nat := (ps.map f64HashBytes).flatten

/-- Byte stream contributed by the matrix loop of `QuantumGate::py_hash`
(gate.rs lines 111-118): for every entry, real then imaginary bit
pattern; nothing for an absent matrix. -/
def matrixHashBytes : Option (List (List Complex64)) → List Nat
  | some matrix =>
      (matrix.map (fun row =>
        (row.map (fun q => f64HashBytes q.re ++ f64HashBytes q.im)).flatten)).flatten
  | none => []

/-- The complete byte stream `QuantumGate::py_hash` (gate.rs lines
97-120) feeds into the hasher, field by field in source order. -/
def hashStream (p : GenericGateProperty) : List Nat :=
  strHashBytes p.name ++ natListHashBytes p.target_indices ++
  natListHashBytes p.control_indices ++ natListHashBytes p.classical_indices ++
  paramsHashBytes p.params ++ byteListHashBytes p.pauli_ids ++
  matrixHashBytes p.unitary_matrix

/-- The accumulator finish step. `DefaultHasher` is an unspecified but
fixed, deterministic, keyless accumulator of the standard library; it is
modelled here by a concrete order-sensitive fold over the byte stream
(the code under verification relies only on determinism of the
accumulator, never on its internal constants). -/
def hasherFinish (stream : List Nat) : Nat :=
  stream.foldl (fun acc b => (acc * 1099511628211 + b) % 2 ^ 64) 14695981039346656037

/-- Embedding of `QuantumGate::py_hash` (gate.rs lines 97-120): feed
every field of the property record into the accumulator in order and
finish. -/
def QuantumGate.py_hash (g : QuantumGate) : Nat :=
  hasherFinish (hashStream g.into_property)

/-- Modelled from the spec: structural exact-representation equality of
gate values (spec section 4.3; the `PartialEq` implementation of the
inner `QuriPartsGate<f64>` lives outside the given source). Fields are
compared one by one; float parameters by exact representation, complex
matrix entries component-wise by exact representation. -/
def f64ReprEq (a b : F64) : Bool := decide (a.bits = b.bits)

/-- Component-wise exact-representation equality of complex entries. -/
def complexReprEq (a b : Complex64) : Bool :=
  f64ReprEq a.re b.re && f64ReprEq a.im b.im

/-- Pointwise list comparison under an element comparator; false on
length mismatch. -/
def listEqBy (f : α → α → Bool) : List α → List α → Bool
  | [], [] => true
  | a :: as, b :: bs => f a b && listEqBy f as bs
  | _, _ => false

/-- Option comparison under an element comparator. -/
def optEqBy (f : α → α → Bool) : Option α → Option α → Bool
  | some a, some b => f a b
  | none, none => true
  | _, _ => false

/-- Modelled from the spec: field-by-field equality of the property
record with exact-representation float and complex comparison. -/
def gatePropEq (p q : GenericGateProperty) : Bool :=
  decide (p.name = q.name) && decide (p.target_indices = q.target_indices) &&
  decide (p.control_indices = q.control_indices) &&
  decide (p.classical_indices = q.classical_indices) &&
  listEqBy f64ReprEq p.params q.params && decide (p.pauli_ids = q.pauli_ids) &&
  optEqBy (listEqBy (listEqBy complexReprEq)) p.unitary_matrix q.unitary_matrix

/-- The equality relation exposed on gate values. -/
def QuantumGate.gateEq (g1 g2 : QuantumGate) : Bool :=
  gatePropEq g1.into_property g2.into_property

/-- The single-quote character, used by the canonical string form. -/
def squote : String := String.singleton (Char.ofNat 39)

/-- Embedding of `format_tuple` (gate.rs lines 269-280): join the
rendered elements with a comma-space separator and append a trailing
comma exactly when the sequence has one element. -/
def format_tuple (f : α → String) (input : List α) : String :=
  let out := String.intercalate ", " (input.map f)
  if input.length = 1 then out ++ "," else out

/-- Rendering of one `usize` under Rust `Display`: decimal digits. -/
def usizeDisplay (n : Nat) : String := Nat.repr n

/-- Stand-in for the standard-library `Display` rendering of an `f64`
(the decimal formatting algorithm is outside the code under
verification; the claims checked here depend only on it being a fixed
injective rendering of the bit pattern). -/
def f64Display (x : F64) : String := "f64bits:" ++ Nat.repr x.bits

/-- Stand-in for the standard-library `Display` rendering of a
`Complex64` entry, built from the two component renderings. -/
def complexDisplay (q : Complex64) : String :=
  f64Display q.re ++ "+" ++ f64Display q.im ++ "i"

/-- The matrix slot of the canonical string (gate.rs lines 291-295): a
present matrix renders each row parenthesized and the rows joined by
`format_tuple`; an absent matrix renders as the empty-sequence marker. -/
def matrixCompatString : Option (List (List Complex64)) → String
  | some matrix =>
      format_tuple (fun s => s)
        (matrix.map (fun row => "(" ++ format_tuple complexDisplay row ++ ")"))
  | none => "()"

/-- Embedding of `GenericGateProperty::get_compat_string` (gate.rs lines
283-297): the fixed-order canonical rendering of every field. -/
def GenericGateProperty.get_compat_string (p : GenericGateProperty) : String :=
  "QuantumGate(name=" ++ squote ++ p.name ++ squote ++ ", target_indices=(" ++
  format_tuple usizeDisplay p.target_indices ++ "), control_indices=(" ++
  format_tuple usizeDisplay p.control_indices ++ "), classical_indices=(" ++
  format_tuple usizeDisplay p.classical_indices ++ "), params=(" ++
  format_tuple f64Display p.params ++ "), pauli_ids=(" ++
  format_tuple usizeDisplay p.pauli_ids ++ "), unitary_matrix=" ++
  matrixCompatString p.unitary_matrix ++ ")"

/-- Embedding of `QuantumGate::py_repr` (gate.rs lines 58-61). -/
def QuantumGate.py_repr (g : QuantumGate) : String :=
  g.into_property.get_compat_string

/-- Embedding of the `ParametricQuantumGate` wrapper (gate.rs line 170),
which stores a raw property record. -/
structure ParametricQuantumGate where
  prop : GenericGateProperty
deriving DecidableEq

/-- Embedding of `ParametricQuantumGate::py_new` (gate.rs lines
174-200): a total constructor — no table lookup, no validation — that
accepts name, target indices, control indices and Pauli ids, and pins
classical indices and params to empty and the matrix to absent. -/
def ParametricQuantumGate.py_new (name : String) (target_indices : List Nat)
    (control_indices : List Nat) (pauli_ids : List Nat) : ParametricQuantumGate :=
  ⟨{ name := name, target_indices := target_indices,
     control_indices := control_indices, pauli_ids := pauli_ids,
     classical_indices := [], params := [], unitary_matrix := none }⟩

/-- A concrete validated gate used as the evaluation point of several
witnesses: the Pauli-X gate on qubit 0. -/
def gXProp : GenericGateProperty := ⟨"X", [0], [], [], [], [], none⟩

/-! Helper lemmas about the equality comparators and the Normalizer. -/

theorem f64ReprEq_iff (a b : F64) : f64ReprEq a b = true ↔ a = b := by
  cases a; cases b
  simp [f64ReprEq]

theorem complexReprEq_iff (a b : Complex64) : complexReprEq a b = true ↔ a = b := by
  cases a; cases b
  simp [complexReprEq, f64ReprEq_iff]

theorem listEqBy_iff {α : Type} (f : α → α → Bool)
    (hf : ∀ a b, f a b = true ↔ a = b) :
    ∀ l1 l2 : List α, listEqBy f l1 l2 = true ↔ l1 = l2 := by
  intro l1
  induction l1 with
  | nil => intro l2; cases l2 <;> simp [listEqBy]
  | cons a as ih =>
    intro l2
    cases l2 with
    | nil => simp [listEqBy]
    | cons b bs => simp [listEqBy, hf, ih]

theorem optEqBy_iff {α : Type} (f : α → α → Bool)
    (hf : ∀ a b, f a b = true ↔ a = b) :
    ∀ o1 o2 : Option α, optEqBy f o1 o2 = true ↔ o1 = o2 := by
  intro o1 o2
  cases o1 <;> cases o2 <;> simp [optEqBy, hf]

theorem gatePropEq_iff (p q : GenericGateProperty) :
    gatePropEq p q = true ↔ p = q := by
  cases p; cases q
  simp only [gatePropEq, GenericGateProperty.mk.injEq, Bool.and_eq_true,
    decide_eq_true_eq, listEqBy_iff f64ReprEq f64ReprEq_iff,
    optEqBy_iff _ (listEqBy_iff _ (listEqBy_iff _ complexReprEq_iff))]
  tauto

theorem gateEq_iff (g1 g2 : QuantumGate) :
    QuantumGate.gateEq g1 g2 = true ↔ g1 = g2 := by
  cases g1; cases g2
  simp [QuantumGate.gateEq, QuantumGate.into_property, gatePropEq_iff]

theorem from_property_some {p q : GenericGateProperty}
    (h : from_property p = some q) : q = p := by
  unfold from_property at h
  split at h
  · split at h
    · exact (Option.some.inj h).symm
    · cases h
  · cases h

theorem normalizeMatrix_idem (m : Option (List (List Complex64))) :
    normalizeMatrix (normalizeMatrix m) = normalizeMatrix m := by
  cases m with
  | none => rfl
  | some matrix =>
    by_cases h : matrix.length = 0
    · simp [normalizeMatrix, h]
    · simp [normalizeMatrix, h]

/-- C6: for every property bag, supplying a unitary matrix with zero rows
is treated identically to supplying no matrix at all: construction with
an explicit empty matrix produces the very same result (success with an
equal gate value, or the same failure) as construction with the matrix
omitted. -/
theorem c6_empty_matrix_normalization (name : String) (t c cl : List Nat)
    (ps : List F64) (pid : List Nat) :
    QuantumGate.py_new name t c cl ps pid (some []) =
      QuantumGate.py_new name t c cl ps pid none := rfl

/-- C8: the parametric path is total — for any name whatsoever and any
target, control and Pauli-id lists, `ParametricQuantumGate::py_new`
succeeds with no validation (it returns a plain value, not a fallible
result), and the constructed value always has empty classical indices,
empty params and an absent matrix, while the four accepted fields are
stored unchanged. -/
theorem c8_parametric_unvalidated (name : String) (t c pid : List Nat) :
    (ParametricQuantumGate.py_new name t c pid).prop.classical_indices = [] ∧
    (ParametricQuantumGate.py_new name t c pid).prop.params = [] ∧
    (ParametricQuantumGate.py_new name t c pid).prop.unitary_matrix = none ∧
    (ParametricQuantumGate.py_new name t c pid).prop.name = name ∧
    (ParametricQuantumGate.py_new name t c pid).prop.target_indices = t ∧
    (ParametricQuantumGate.py_new name t c pid).prop.control_indices = c ∧
    (ParametricQuantumGate.py_new name t c pid).prop.pauli_ids = pid :=
  ⟨rfl, rfl, rfl, rfl, rfl, rfl, rfl⟩

/-- C10: when the matrix is absent the accessor returns the empty
sequence rather than a distinct no-value marker; when a matrix is
present it returns its rows in order; consequently an absent matrix and
a zero-row matrix are indistinguishable through the accessor. -/
theorem c10_unitary_matrix_accessor :
    (∀ g : QuantumGate, g.into_property.unitary_matrix = none →
      g.get_unitary_matrix = []) ∧
    (∀ (g : QuantumGate) (m : List (List Complex64)),
      g.into_property.unitary_matrix = some m → g.get_unitary_matrix = m) ∧
    (∀ p : GenericGateProperty,
      QuantumGate.get_unitary_matrix ⟨{ p with unitary_matrix := some [] }⟩ =
        QuantumGate.get_unitary_matrix ⟨{ p with unitary_matrix := none }⟩) := by
  refine ⟨?_, ?_, ?_⟩
  · intro g h
    simp [QuantumGate.get_unitary_matrix, h]
  · intro g m h
    simp [QuantumGate.get_unitary_matrix, h]
  · intro p
    rfl

/-- Witness for C10 at a concrete gate: the X gate has no matrix and its
accessor yields the empty sequence. -/
theorem c10_unitary_matrix_accessor_witness :
    QuantumGate.get_unitary_matrix ⟨gXProp⟩ = [] :=
  c10_unitary_matrix_accessor.1 ⟨gXProp⟩ rfl

/-- C9: the display string is a pure function of the gate value fields —
two gate values with the same decomposed field tuple render to
byte-for-byte identical text, with no dependence on anything outside the
fields. -/
theorem c9_repr_deterministic (g1 g2 : QuantumGate)
    (h : g1.py_reduce = g2.py_reduce) : g1.py_repr = g2.py_repr := by
  obtain ⟨p1⟩ := g1
  obtain ⟨p2⟩ := g2
  obtain ⟨n1, t1, c1, cl1, ps1, pid1, m1⟩ := p1
  obtain ⟨n2, t2, c2, cl2, ps2, pid2, m2⟩ := p2
  simp only [QuantumGate.py_reduce, QuantumGate.into_property, Prod.mk.injEq] at h
  obtain ⟨h1, h2, h3, h4, h5, h6, h7⟩ := h
  subst h1; subst h2; subst h3; subst h4; subst h5; subst h6; subst h7
  rfl

/-- Witness for C9 at a concrete gate value. -/
theorem c9_repr_deterministic_witness :
    QuantumGate.py_repr ⟨gXProp⟩ = QuantumGate.py_repr ⟨gXProp⟩ :=
  c9_repr_deterministic ⟨gXProp⟩ ⟨gXProp⟩ rfl

/-- C2: equal gate values (under the exact-representation equality
relation) always hash equal; and two constructions from the identical
field tuple always yield equal values with equal hashes. -/
theorem c2_hash_congruence :
    (∀ g1 g2 : QuantumGate, QuantumGate.gateEq g1 g2 = true →
      g1.py_hash = g2.py_hash) ∧
    (∀ (name : String) (t c cl : List Nat) (ps : List F64) (pid : List Nat)
      (m : Option (List (List Complex64))) (g1 g2 : QuantumGate),
      QuantumGate.py_new name t c cl ps pid m = .ok g1 →
      QuantumGate.py_new name t c cl ps pid m = .ok g2 →
      QuantumGate.gateEq g1 g2 = true ∧ g1.py_hash = g2.py_hash) := by
  constructor
  · intro g1 g2 h
    rw [(gateEq_iff g1 g2).mp h]
  · intro name t c cl ps pid m g1 g2 h1 h2
    have hg : g1 = g2 := Except.ok.inj (h1.symm.trans h2)
    subst hg
    exact ⟨(gateEq_iff g1 g1).mpr rfl, rfl⟩

/-- Witness for C2: two constructions of the X gate from the same field
tuple are equal and hash equal. -/
theorem c2_hash_congruence_witness :
    QuantumGate.gateEq ⟨gXProp⟩ ⟨gXProp⟩ = true ∧
    QuantumGate.py_hash ⟨gXProp⟩ = QuantumGate.py_hash ⟨gXProp⟩ :=
  c2_hash_congruence.2 "X" [0] [] [] [] [] none ⟨gXProp⟩ ⟨gXProp⟩ rfl rfl

/-- C4: gate value equality is structural and exact-representation
based — it holds exactly when every field compares equal with floats
compared by representation; it is strictly finer than numeric IEEE
comparison, witnessed by two gates whose only difference is a parameter
of positive versus negative zero: numerically IEEE-equal, yet the gate
values compare unequal. -/
theorem c4_structural_equality :
    (∀ g1 g2 : QuantumGate, QuantumGate.gateEq g1 g2 = true ↔ g1 = g2) ∧
    f64IeeeEq f64PosZero f64NegZero = true ∧
    QuantumGate.gateEq ⟨⟨"RX", [0], [], [], [f64PosZero], [], none⟩⟩
      ⟨⟨"RX", [0], [], [], [f64NegZero], [], none⟩⟩ = false :=
  ⟨gateEq_iff, by decide, by decide⟩

/-- C1: the round-trip law — any gate value produced by the validated
constructor, when decomposed into its field tuple and fed back through
the validated constructor, reconstructs successfully to a value equal to
the original. -/
theorem c1_round_trip (name : String) (t c cl : List Nat) (ps : List F64)
    (pid : List Nat) (m : Option (List (List Complex64))) (g : QuantumGate)
    (h : QuantumGate.py_new name t c cl ps pid m = .ok g) :
    QuantumGate.py_new g.py_reduce.1 g.py_reduce.2.1 g.py_reduce.2.2.1
      g.py_reduce.2.2.2.1 g.py_reduce.2.2.2.2.1 g.py_reduce.2.2.2.2.2.1
      g.py_reduce.2.2.2.2.2.2 = .ok g := by
  unfold QuantumGate.py_new at h
  split at h
  next g0 hfp =>
    have hg0 : g0 = ⟨name, t, c, cl, ps, pid, normalizeMatrix m⟩ :=
      from_property_some hfp
    have hg : g = ⟨g0⟩ := (Except.ok.inj h).symm
    subst hg
    subst hg0
    show QuantumGate.py_new name t c cl ps pid (normalizeMatrix m) =
      .ok ⟨⟨name, t, c, cl, ps, pid, normalizeMatrix m⟩⟩
    unfold QuantumGate.py_new
    rw [show (⟨name, t, c, cl, ps, pid, normalizeMatrix (normalizeMatrix m)⟩ :
        GenericGateProperty) = ⟨name, t, c, cl, ps, pid, normalizeMatrix m⟩ from by
      rw [normalizeMatrix_idem]]
    rw [hfp]
  next hfp => cases h

/-- Witness for C1: the X gate round-trips. -/
theorem c1_round_trip_witness :
    QuantumGate.py_new "X" [0] [] [] [] [] none = .ok ⟨gXProp⟩ ∧
    QuantumGate.py_new (QuantumGate.mk gXProp).py_reduce.1
      (QuantumGate.mk gXProp).py_reduce.2.1
      (QuantumGate.mk gXProp).py_reduce.2.2.1
      (QuantumGate.mk gXProp).py_reduce.2.2.2.1
      (QuantumGate.mk gXProp).py_reduce.2.2.2.2.1
      (QuantumGate.mk gXProp).py_reduce.2.2.2.2.2.1
      (QuantumGate.mk gXProp).py_reduce.2.2.2.2.2.2 = .ok ⟨gXProp⟩ :=
  ⟨rfl, c1_round_trip "X" [0] [] [] [] [] none ⟨gXProp⟩ rfl⟩

/-- C3: construction fails exactly when the name is not in the Gate-Kind
Table or the (matrix-normalized) field shapes mismatch the table entry
for that name — the square-matrix and dimension rules are part of the
shape check — and every failure carries the attempted gate name in its
message. -/
theorem c3_construction_failure (name : String) (t c cl : List Nat)
    (ps : List F64) (pid : List Nat) (m : Option (List (List Complex64))) :
    ((∃ e, QuantumGate.py_new name t c cl ps pid m = .error e) ↔
      lookupGateKind name = none ∨
        ∃ k, lookupGateKind name = some k ∧
          shapeOk k ⟨name, t, c, cl, ps, pid, normalizeMatrix m⟩ = false) ∧
    (∀ e, QuantumGate.py_new name t c cl ps pid m = .error e →
      e = "Cannot initialize QuantumGate with " ++ name) := by
  constructor
  · unfold QuantumGate.py_new from_property
    cases hl : lookupGateKind name with
    | none => simp [hl]
    | some k =>
      by_cases hs : shapeOk k ⟨name, t, c, cl, ps, pid, normalizeMatrix m⟩ = true
      · simp [hl, hs]
      · rw [Bool.not_eq_true] at hs
        simp [hl, hs]
  · intro e he
    unfold QuantumGate.py_new at he
    split at he
    · cases he
    · exact (Except.error.inj he).symm

/-- Witness for C3: the spec scenario — RX with a missing parameter
fails, and the failure message names RX. -/
theorem c3_construction_failure_witness :
    "Cannot initialize QuantumGate with RX" =
      "Cannot initialize QuantumGate with " ++ "RX" ∧
    QuantumGate.py_new "RX" [2] [] [] [] [] none =
      .error "Cannot initialize QuantumGate with RX" :=
  ⟨(c3_construction_failure "RX" [2] [] [] [] [] none).2 _ rfl, rfl⟩

theorem paramsHashBytes_middle (ps qs : List F64) (x : F64) :
    paramsHashBytes (ps ++ x :: qs) =
      paramsHashBytes ps ++ (f64HashBytes x ++ paramsHashBytes qs) := by
  simp [paramsHashBytes]

/-- C5: the hash feeds every field into the order-sensitive accumulator
with each float parameter contributed through the little-endian bytes of
its exact bit pattern and each complex entry through the bit patterns of
its real and imaginary parts; consequently two gate values whose params
differ only between positive and negative zero (numerically IEEE-equal)
feed different byte sequences to the hasher. -/
theorem c5_hash_bit_pattern :
    (∀ g : QuantumGate,
      g.py_hash = hasherFinish (
        strHashBytes g.into_property.name ++
        natListHashBytes g.into_property.target_indices ++
        natListHashBytes g.into_property.control_indices ++
        natListHashBytes g.into_property.classical_indices ++
        (g.into_property.params.map
          (fun p => usizeHashBytes 8 ++ leBytes8 p.bits)).flatten ++
        byteListHashBytes g.into_property.pauli_ids ++
        matrixHashBytes g.into_property.unitary_matrix)) ∧
    (∀ (name : String) (t c cl pid : List Nat)
      (m : Option (List (List Complex64))) (ps qs : List F64),
      (hashStream ⟨name, t, c, cl, ps ++ f64PosZero :: qs, pid, m⟩ ==
        hashStream ⟨name, t, c, cl, ps ++ f64NegZero :: qs, pid, m⟩) = false) ∧
    f64IeeeEq f64PosZero f64NegZero = true := by
  refine ⟨fun g => rfl, ?_, by decide⟩
  intro name t c cl pid m ps qs
  rw [beq_eq_false_iff_ne]
  intro hEq
  simp only [hashStream, paramsHashBytes_middle, List.append_assoc] at hEq
  have h1 := List.append_cancel_left hEq
  have h2 := List.append_cancel_left h1
  have h3 := List.append_cancel_left h2
  have h4 := List.append_cancel_left h3
  have h5 := List.append_cancel_left h4
  have h6 := List.append_cancel_right h5
  exact absurd h6 (by decide)

/-- C7: the canonical string lists the name and every field in the fixed
order (target, control, classical, params, pauli ids, unitary matrix); a
single-element sequence renders with a trailing separator that
distinguishes it from empty and multi-element sequences; an absent
matrix renders as the explicit empty-sequence marker; concretely, the X
gate on qubit 0 renders its target field as a one-element tuple with the
trailing comma. -/
theorem c7_canonical_string :
    (∀ p : GenericGateProperty,
      p.get_compat_string =
        "QuantumGate(name=" ++ squote ++ p.name ++ squote ++
        ", target_indices=(" ++ format_tuple usizeDisplay p.target_indices ++
        "), control_indices=(" ++ format_tuple usizeDisplay p.control_indices ++
        "), classical_indices=(" ++ format_tuple usizeDisplay p.classical_indices ++
        "), params=(" ++ format_tuple f64Display p.params ++
        "), pauli_ids=(" ++ format_tuple usizeDisplay p.pauli_ids ++
        "), unitary_matrix=" ++ matrixCompatString p.unitary_matrix ++ ")") ∧
    (∀ (α : Type) (f : α → String) (x : α), format_tuple f [x] = f x ++ ",") ∧
    (∀ (α : Type) (f : α → String), format_tuple f [] = "") ∧
    (∀ (α : Type) (f : α → String) (a b : α),
      format_tuple f [a, b] = f a ++ ", " ++ f b) ∧
    matrixCompatString none = "()" ∧
    (QuantumGate.py_new "X" [0] [] [] [] [] none).map QuantumGate.py_repr =
      .ok ("QuantumGate(name=" ++ squote ++ "X" ++ squote ++
        ", target_indices=(0,), control_indices=(), classical_indices=(), " ++
        "params=(), pauli_ids=(), unitary_matrix=())") :=
  ⟨fun _ => rfl, fun _ _ _ => rfl, fun _ _ => rfl, fun _ _ _ _ => rfl, rfl, rfl⟩
